import Mathlib

/-!
Verification development for the query-interpretation and analytics-orchestration pipeline
(backend/app/ai: master_agent/agent.py, sub_agents/analytics_agent/agent.py,
sub_agents/prediction_agent/agent.py).

Modelling conventions:
* Tabular data (pandas DataFrame) is a `List Shipment`; a missing (NaN)
  categorical cell is `Option.none`.
* Timestamps are integer day ordinals; calendar dates are `(year, month, day)`
  triples with `Date.toOrd` the civil-calendar day count (the Hinnant
  days-from-civil algorithm, valid for common-era dates, which is all the
  data this program ever sees).  `timedelta(days = n)` is ordinal subtraction.
* Real arithmetic (numpy / pandas floats) is modelled exactly over `ℚ`.
* External LLM capabilities (intent classifier, metadata extractor, plan
  generators) are oracle inputs: the pipeline receives their already-parsed
  results as arguments, mirroring the structured objects the tools module
  returns.  The result of `numpy.linalg.lstsq` (an external floating-point
  solver over a rank-deficient one-hot system) is likewise an oracle input;
  every claim proved below is independent of its value.
* Python `round` and format specifiers round half to even; this is
  `roundHalfEven` below.
-/

namespace Hermes

/-! ## Generic string and number helpers

String operations are implemented by structural recursion over the
character list (`String.data`) rather than through the byte-position-based
core functions, so that they compute inside the kernel; each models the
named Python method on the same character sequence. -/

/-- Python `str.lower()` (the queries and labels here are ASCII). -/
def pyLower (s : String) : String := String.mk (s.data.map Char.toLower)

/-- Python `str.strip()`: whitespace removed from both ends. -/
def pyStrip (s : String) : String :=
  String.mk
    (((s.data.dropWhile Char.isWhitespace).reverse.dropWhile
      Char.isWhitespace).reverse)

/-- Python `str.startswith`. -/
def startsWithStr (s pre : String) : Bool := pre.data.isPrefixOf s.data

def wordCountAux : List Char → Bool → Nat
  | [], _ => 0
  | c :: rest, inWord =>
    if c.isWhitespace then wordCountAux rest false
    else (if inWord then 0 else 1) + wordCountAux rest true

/-- Number of words of a Python `str.split()` (split on whitespace runs). -/
def wordCount (s : String) : Nat := wordCountAux s.data false

/-- Python substring containment `t in q`. -/
def containsSub (q t : String) : Bool :=
  (q.data.tails).any (fun suf => t.data.isPrefixOf suf)

/-- Python truthiness-based `or` for optional strings: `o or dflt`. -/
def pyOr (o : Option String) (dflt : String) : String :=
  match o with
  | none => dflt
  | some s => if s = "" then dflt else s

/-- Python `str.capitalize()`: first character upper-cased, rest lower-cased. -/
def pyCapitalize (s : String) : String :=
  match s.data with
  | [] => s
  | c :: rest => String.mk (c.toUpper :: rest.map Char.toLower)

/-- Lexicographic comparison by code point, the order that both the Python
`sorted` builtin and pandas use for the string labels here. -/
def charListLe : List Char → List Char → Bool
  | [], _ => true
  | _ :: _, [] => false
  | a :: as, b :: bs =>
    if a.toNat < b.toNat then true
    else if b.toNat < a.toNat then false
    else charListLe as bs

def strLe (a b : String) : Prop := charListLe a.data b.data = true

instance : DecidableRel strLe := fun a b => by
  unfold strLe; infer_instance

/-- Sum of a list of rationals. -/
def qSum (l : List ℚ) : ℚ := l.foldr (fun a b => a + b) 0

/-- Arithmetic mean (pandas `mean` / `numpy.mean`); only ever applied to
nonempty lists by the modelled code paths. -/
def listMean (l : List ℚ) : ℚ := qSum l / (l.length : ℚ)

/-- Round to the nearest integer, ties to even (IEEE/Python rounding). -/
def roundHalfEven (x : ℚ) : Int :=
  let f : Int := ⌊x⌋
  let frac : ℚ := x - (f : ℚ)
  if frac < 1/2 then f
  else if (1:ℚ)/2 < frac then f + 1
  else if f % 2 = 0 then f else f + 1

/-- Python `round(x, n)` on exact values. -/
def pyRound (x : ℚ) (n : Nat) : ℚ :=
  (roundHalfEven (x * (10 : ℚ) ^ n) : ℚ) / (10 : ℚ) ^ n

/-- Python `int(x)`: truncation toward zero. -/
def ratTrunc (q : ℚ) : Int := if 0 ≤ q then ⌊q⌋ else ⌈q⌉

/-- Left-pad a numeral string with zeros to the given width. -/
def padZeros (s : String) (width : Nat) : String :=
  if s.length < width then String.mk (List.replicate (width - s.length) '0') ++ s
  else s

/-- Python fixed-point formatting `f"x:.{prec}f"` on exact values. -/
def fmtFixed (prec : Nat) (x : ℚ) : String :=
  let scaled : Int := roundHalfEven (x * (10 : ℚ) ^ prec)
  let sign := if scaled < 0 then ("-") else ("")
  let a : Nat := scaled.natAbs
  if prec = 0 then sign ++ toString a
  else sign ++ toString (a / 10 ^ prec) ++ (".") ++ padZeros (toString (a % 10 ^ prec)) prec

/-- Repr of a Python float holding an exact decimal value: smallest number of
decimal digits that writes the value exactly, with at least one ("5.0").
Values produced by the modelled code are rounded to at most two decimals;
other denominators (unreachable here) fall back to 17 digits. -/
def pyFloatRepr (q : ℚ) : String :=
  let k := ((List.range 18).find? (fun k => (q * (10:ℚ) ^ k).den = 1)).getD 17
  fmtFixed (max k 1) q

/-- Python `sep.join(parts)`. -/
def pyJoin (sep : String) : List String → String
  | [] => ""
  | [a] => a
  | a :: rest => a ++ sep ++ pyJoin sep rest

/-- A value appearing in a summary-template context or a table cell:
a string, an exact float, an int, or Python `None`. -/
inductive PyVal where
  | s (v : String)
  | q (v : ℚ)
  | i (v : Int)
  | none_
deriving DecidableEq, Repr

/-- Python `str(v)` for the values above. -/
def PyVal.str : PyVal → String
  | .s v => v
  | .q v => pyFloatRepr v
  | .i v => toString v
  | .none_ => ("None")

/-- Applying the format spec `.{n}f` to a value (TypeError on strings/None). -/
def PyVal.fixed (n : Nat) : PyVal → Option String
  | .q v => some (fmtFixed n v)
  | .i v => some (fmtFixed n (v : ℚ))
  | _ => none

/-! ## Python `str.format` (the subset exercised by the plan templates)

`pyFormat` renders `template.format(**context)`: `\x7b\x7b` and `\x7d\x7d` are
escapes, `\x7bname\x7d` interpolates `str(value)`, `\x7bname:.Nf\x7d` formats a
number.  Any other construct - unknown name, stray brace, malformed or
unsupported format spec - is an error (`Option.none`), matching the broad
`except Exception` in `_format_summary_template`.  Format specs beyond `.Nf`
are conservatively modelled as errors; the generated plans only use these. -/

def braceOpen : Char := Char.ofNat 123
def braceClose : Char := Char.ofNat 125

/-- Parse a format spec: empty means `str`, `.Nf` means fixed-point. -/
def parseSpec (spec : List Char) (v : PyVal) : Option String :=
  match spec with
  | [] => some v.str
  | '.' :: rest =>
    match rest.reverse with
    | 'f' :: digitsRev =>
      let ds := digitsRev.reverse
      if ds ≠ [] ∧ ds.all Char.isDigit then
        v.fixed (ds.foldl (fun acc c => acc * 10 + (c.toNat - 48)) 0)
      else none
    | _ => none
  | _ => none

/-- Interpolate one replacement field (the text between braces). -/
def renderField (field : List Char) (ctx : List (String × PyVal)) : Option String :=
  let name := field.takeWhile (fun c => c ≠ ':')
  let spec := (field.drop name.length).drop 1
  match ctx.lookup (String.mk name) with
  | none => none
  | some v => parseSpec spec v

/-- The scanner consumes at least one character per step, so running it
with fuel equal to the character count never exhausts the fuel; the
fuel-zero arm exists only to make the recursion structural. -/
def pyFormatCore (ctx : List (String × PyVal)) : Nat → List Char → Option String
  | _, [] => some ""
  | Nat.succ fuel, c :: c' :: rest =>
    if c = braceOpen ∧ c' = braceOpen then
      (fun t => String.mk [braceOpen] ++ t) <$> pyFormatCore ctx fuel rest
    else if c = braceClose ∧ c' = braceClose then
      (fun t => String.mk [braceClose] ++ t) <$> pyFormatCore ctx fuel rest
    else if c = braceOpen then
      let field := (c' :: rest).takeWhile (fun x => x ≠ braceClose)
      let remaining := (c' :: rest).drop (field.length + 1)
      if field.length = (c' :: rest).length then none  -- unterminated field
      else match renderField field ctx with
        | none => none
        | some piece => (fun t => piece ++ t) <$> pyFormatCore ctx fuel remaining
    else if c = braceClose then none  -- single closing brace
    else (fun t => String.mk [c] ++ t) <$> pyFormatCore ctx fuel (c' :: rest)
  | Nat.succ _, [c] =>
    if c = braceOpen ∨ c = braceClose then none
    else some (String.mk [c])
  | 0, _ :: _ => none  -- unreachable under the fuel supplied by the wrapper

/-- `template.format(**ctx)` returning `none` on any formatting error. -/
def pyFormat (template : String) (ctx : List (String × PyVal)) : Option String :=
  pyFormatCore ctx template.data.length template.data

/-- `_format_summary_template` (analytics_agent/agent.py): empty template or
missing template yields `""`; a formatting error is swallowed to `""`. -/
def format_summary_template (template : Option String) (ctx : List (String × PyVal)) : String :=
  match template with
  | none => ""
  | some t => if t = "" then "" else (pyFormat t ctx).getD ""

/-! ## Data model -/

/-- A calendar date.  `toOrd` is the civil day count (days-from-civil
algorithm), an exact model of timestamp ordering and day arithmetic for
common-era dates; it differs from the Python `date.toordinal()` by a constant
offset only, which no property below depends on. -/
structure Date where
  y : Int
  m : Int
  d : Int
deriving DecidableEq, Repr

def Date.toOrd (dt : Date) : Int :=
  let yAdj := if dt.m ≤ 2 then dt.y - 1 else dt.y
  let era := (if 0 ≤ yAdj then yAdj else yAdj - 399) / 400
  let yoe := yAdj - era * 400
  let mp := (dt.m + 9) % 12
  let doy := (153 * mp + 2) / 5 + dt.d - 1
  let doe := yoe * 365 + yoe / 4 - yoe / 100 + doy
  era * 146097 + doe

/-- Inverse of `Date.toOrd` (civil-from-days), used only to render period
strings. -/
def Date.ofOrd (z : Int) : Date :=
  let era := (if 0 ≤ z then z else z - 146096) / 146097
  let doe := z - era * 146097
  let yoe := (doe - doe / 1460 + doe / 36524 - doe / 146096) / 365
  let yAdj := yoe + era * 400
  let doy := doe - (365 * yoe + yoe / 4 - yoe / 100)
  let mp := (5 * doy + 2) / 153
  let d := doy - (153 * mp + 2) / 5 + 1
  let m := mp + (if mp < 10 then 3 else -9)
  ⟨yAdj + (if m ≤ 2 then 1 else 0), m, d⟩

/-- ISO rendering `str(datetime.date)`, e.g. "2024-03-05". -/
def Date.iso (dt : Date) : String :=
  toString dt.y ++ ("-") ++ padZeros (toString dt.m.natAbs) 2
    ++ ("-") ++ padZeros (toString dt.d.natAbs) 2

def monthAbbr (m : Int) : String :=
  (["Jan", "Feb", "Mar", "Apr", "May", "Jun",
    "Jul", "Aug", "Sep", "Oct", "Nov", "Dec"].getD (m - 1).toNat ("Jan"))

/-- `strftime("%b %d, %Y")` of the date with the given ordinal. -/
def fmtPeriodDate (ord : Int) : String :=
  let dt := Date.ofOrd ord
  monthAbbr dt.m ++ (" ") ++ padZeros (toString dt.d.natAbs) 2
    ++ (", ") ++ toString dt.y

/-- One row of the shipment dataset.  A `none` categorical field models a
NaN cell. -/
structure Shipment where
  id : Nat
  route : Option String
  warehouse : Option String
  delivery_time : ℚ
  delay_minutes : ℚ
  delay_reason : Option String
  date : Date
deriving DecidableEq, Repr

/-- A resolved timeframe: the `{"start": ..., "end": ...}` dict.  Every
branch of the source that produces one sets both bounds. -/
structure TF where
  start : Int
  stop : Int
deriving DecidableEq, Repr

/-- Entity filters: at most one exact-match value per recognized column. -/
structure Filters where
  route : Option String
  warehouse : Option String
  delay_reason : Option String
deriving DecidableEq, Repr

/-- One prior conversation turn; only its `intent` field is read by the
intent resolver (the text fields are consumed solely by the LLM oracles). -/
structure HistoryEntry where
  intent : Option String
deriving DecidableEq, Repr

/-- The pipeline state fields the modelled stages read. -/
structure AgentState where
  query : String
  data : List Shipment
  intent : Option String
  timeframe : Option TF
  filters : Filters
  forecast_horizon_days : Option Int
deriving DecidableEq, Repr

/-! ## Master agent: intent resolution (_classify_intent) -/

def INTENTS : List String :=
  ["greeting", "gratitude", "clarify", "prediction", "warehouse", "route",
   "delay_reason", "delay", "analytics", "conversation", "text_only"]

def gratitude_tokens : List String :=
  ["thanks", "thank you", "thank u", "much appreciated", "appreciate it"]

def greeting_tokens : List String :=
  ["hi", "hello", "hey", "greetings", "good morning", "good afternoon",
   "good evening"]

def domain_keywords : List String :=
  ["predict", "forecast", "warehouse", "route", "reason", "delay"]

/-- `llm_classify_intent` (tools.py): given the `intent` string parsed out of
the JSON returned by the classifier (or `none` when the call failed or returned no JSON
object), strip it and accept it only if it belongs to the closed vocabulary. -/
def llm_classify_intent (rawIntent : Option String) : Option String :=
  match rawIntent with
  | none => none
  | some s =>
    let i := pyStrip s
    if i ∈ INTENTS then some i else none

/-- Most recent history intent that is truthy and not greeting/clarify. -/
def last_reusable_intent (history : List HistoryEntry) : Option String :=
  history.reverse.findSome? fun h =>
    match h.intent with
    | some i =>
      if i ≠ "" ∧ i ∉ [("greeting"), ("clarify")] then some i else none
    | none => none

/-- Lines 73-98 of `_classify_intent`: accept the label proposed by the
external classifier (with the analytics-to-clarify ambiguity override), else the local
keyword fallback. -/
def classify_llm_or_heuristic (q : String) (ambiguous : Bool)
    (rawIntent : Option String) : String :=
  match llm_classify_intent rawIntent with
  | some llmIntent =>
    if llmIntent = "analytics" ∧ ambiguous then ("clarify") else llmIntent
  | none =>
    let intent :=
      if ([("predict"), ("forecast"), ("next week"), ("projection")].any
          fun t => containsSub q t) then ("prediction")
      else if containsSub q ("warehouse") then ("warehouse")
      else if containsSub q ("route") then ("route")
      else if containsSub q ("reason") then ("delay_reason")
      else if ([("average delay"), ("delay last"), ("delay in"),
          ("delay stats")].any fun t => containsSub q t) then ("delay")
      else ("analytics")
    if intent = "analytics" ∧ ambiguous then ("clarify") else intent

/-- The ambiguity condition: a short query with no domain keyword. -/
def ambiguousQuery (q : String) : Bool :=
  decide (wordCount q ≤ 4) && !(domain_keywords.any fun k => containsSub q k)

/-- `_classify_intent` (master_agent/agent.py).  `rawIntent` is the label the external
classifier proposed (`none` models an unavailable capability or
malformed output); totality of this Lean function models termination of the
stage. -/
def classify_intent (query : String) (history : List HistoryEntry)
    (rawIntent : Option String) : String :=
  let q := pyLower query
  if (gratitude_tokens.any fun t => containsSub q t) ∧ wordCount q ≤ 6 then
    ("gratitude")
  else if (greeting_tokens.any fun t => startsWithStr (pyStrip q) t) ∧ wordCount q ≤ 4 then
    ("greeting")
  else
    let ambiguous := ambiguousQuery q
    if history ≠ [] ∧ ambiguous then
      match last_reusable_intent history with
      | some lastIntent => lastIntent
      | none => classify_llm_or_heuristic q ambiguous rawIntent
    else classify_llm_or_heuristic q ambiguous rawIntent

/-! ## Master agent: timeframe resolution -/

/-- The `value` object inside the extractor `timeframe` field: a relative
`{amount, unit}` (amount kept only when numeric) or absolute `{start, end}`
(bounds kept only when they parse to timestamps; `none` models a missing
field or a `NaT` parse). -/
structure TFValue where
  amount : Option ℚ
  unit : Option String
  start : Option Int
  stop : Option Int
deriving DecidableEq, Repr

def TFValue.empty : TFValue := ⟨none, none, none, none⟩

/-- The extractor `timeframe` object.  At the call sites an absent or
non-dict `timeframe` (including wholly empty metadata) is `none`. -/
structure MetaTF where
  type_ : Option String
  value : Option TFValue
deriving DecidableEq, Repr

/-- `_convert_unit_to_days` (master_agent/agent.py).  Note the fall-through:
any unit other than day/week/month/quarter - including "year", which the
metadata prompt explicitly allows - returns the raw value. -/
def convert_unit_to_days (value : Int) (unit : String) : Int :=
  let u := pyLower unit
  if startsWithStr u ("day") then value
  else if startsWithStr u ("week") then value * 7
  else if startsWithStr u ("month") then value * 30
  else if startsWithStr u ("quarter") then value * 90
  else value

/-- Maximum of a list of ints (0 for the empty list; `df["date"].max()` on an
empty column is NaT in pandas, a case excluded by hypothesis wherever it
matters). -/
def maxIntD : List Int → Int
  | [] => 0
  | x :: xs => xs.foldl max x

def max_date_ord (df : List Shipment) : Int :=
  maxIntD (df.map fun r => r.date.toOrd)

/-- `_resolve_timeframe` (master_agent/agent.py). -/
def resolve_timeframe (tfm : Option MetaTF) (df : List Shipment) : Option TF :=
  match tfm with
  | none => none
  | some t =>
    let v := t.value.getD TFValue.empty
    if t.type_ = some ("relative") then
      match v.amount, v.unit with
      | some a, some u =>
        let amountInt := ratTrunc a
        if amountInt ≤ 0 then none
        else
          let days := convert_unit_to_days amountInt u
          let endDate := max_date_ord df
          some ⟨endDate - days, endDate⟩
      | _, _ => none
    else if t.type_ = some ("absolute") then
      match v.start, v.stop with
      | some s, some e => some ⟨s, e⟩
      | _, _ => none
    else none

/-- The "october" heuristic: the most recent October present in the data. -/
def october_timeframe (df : List Shipment) : Option TF :=
  match df.filter (fun r => r.date.m = 10) with
  | [] => none
  | octRows =>
    let yr := maxIntD (octRows.map fun r => r.date.y)
    some ⟨Date.toOrd ⟨yr, 10, 1⟩, Date.toOrd ⟨yr, 10, 31⟩⟩

/-- `_augment_timeframe` (master_agent/agent.py): LLM metadata first, local
phrase heuristics as fallback; skipped (state unchanged) for greeting and
clarify intents.  `prior` is the timeframe of the state entering the stage
(absent on a fresh state). -/
def augment_timeframe (intent : Option String) (prior : Option TF)
    (query : String) (df : List Shipment) (tfm : Option MetaTF) : Option TF :=
  if intent = some ("greeting") ∨ intent = some ("clarify") then prior
  else
    let q := pyLower query
    match resolve_timeframe tfm df with
    | some tf => some tf
    | none =>
      if containsSub q ("last week") then
        some ⟨max_date_ord df - 7, max_date_ord df⟩
      else if containsSub q ("october") then october_timeframe df
      else if containsSub q ("last month") then
        some ⟨max_date_ord df - 30, max_date_ord df⟩
      else none

/-- `int(state.get("forecast_horizon_days", 7) or 7)` (prediction agent):
a missing or zero (falsy) horizon becomes 7. -/
def effective_horizon (fhd : Option Int) : Int :=
  match fhd with
  | none => 7
  | some v => if v = 0 then 7 else v

/-! ## Result payloads -/

structure ChartPoint where
  label : String
  value : PyVal
  tooltip : Option String
  isForecast : Option Bool
deriving DecidableEq, Repr

structure Chart where
  type_ : String
  title : String
  x_label : Option String
  y_label : Option String
  data : List ChartPoint
  dataset_label : Option String
deriving DecidableEq, Repr

/-- One projected point of the forecast array (its date as an ordinal). -/
structure FPoint where
  dateOrd : Int
  predicted_avg_delay : ℚ
deriving DecidableEq, Repr

structure TableV where
  columns : List (String × String)
  rows : List (List (String × PyVal))
  forecast : Option (List FPoint)
deriving DecidableEq, Repr

/-- One ensemble estimate for a route x warehouse x reason combination. -/
structure Estimate where
  route : String
  warehouse : String
  delay_reason : String
  predicted_delay_minutes : ℚ
deriving DecidableEq, Repr

structure Metrics where
  forecast_horizon_days : Int
  ensemble_estimates : List Estimate
deriving DecidableEq, Repr

/-- The per-intent result dict `{summary, intent?, chart, table,
recommendations?, metrics?}`; absent keys are `none`. -/
structure Result where
  summary : String
  intent : Option String
  chart : Option Chart
  table : Option TableV
  recommendations : Option (List String)
  metrics : Option Metrics
deriving DecidableEq, Repr

/-! ## Analytics agent (sub_agents/analytics_agent/agent.py) -/

/-- `_apply_filters` (analytics agent): inclusive timeframe range, then one
exact-match filter per set column (dict insertion order: route, warehouse,
delay_reason; the filters dict never stores a None value). -/
def apply_filters_analytics (state : AgentState) : List Shipment :=
  let df := state.data
  let df := match state.timeframe with
    | none => df
    | some tf =>
      (df.filter fun r => decide (tf.start ≤ r.date.toOrd)).filter
        fun r => decide (r.date.toOrd ≤ tf.stop)
  let df := match state.filters.route with
    | none => df
    | some v => df.filter fun r => r.route == some v
  let df := match state.filters.warehouse with
    | none => df
    | some v => df.filter fun r => r.warehouse == some v
  let df := match state.filters.delay_reason with
    | none => df
    | some v => df.filter fun r => r.delay_reason == some v
  df

/-- Lexicographically sorted list of strings (pandas `groupby` emits group
keys in ascending order; `sorted()` on distinct values likewise). -/
def sortStrings (l : List String) : List String :=
  List.insertionSort strLe l

/-- Distinct non-null keys of a categorical column, in ascending order
(rows with a NaN key are dropped by `groupby`). -/
def groupKeys (l : List (Option String)) : List String :=
  sortStrings (l.filterMap id).dedup

def countDelayed (g : List Shipment) : Int :=
  ((g.filter fun r => decide (0 < r.delay_minutes)).length : Int)

/-- Stable sort of rows by a rational key, ascending or descending.  The
source `sort_values` call uses the default (unstable) pandas quicksort, so the
relative order of equal keys is implementation-defined there; no claim
depends on tie order. -/
def sortRowsBy {α : Type} (key : α → ℚ) (ascending : Bool) (rows : List α) :
    List α :=
  if ascending then List.insertionSort (fun a b => key a ≤ key b) rows
  else List.insertionSort (fun a b => key b ≤ key a) rows

/-- `_format_metric_value`: an integral float becomes an int, anything else
is rounded to two decimals (the non-numeric branch is unreachable: every
call site passes a numeric cell). -/
def format_metric_value (q : ℚ) : PyVal :=
  if q.den = 1 then .i q.num else .q (pyRound q 2)

/-- `_describe_period`. -/
def describe_period (tf : Option TF) : String :=
  match tf with
  | none => ("the selected period")
  | some t => fmtPeriodDate t.start ++ (" to ") ++ fmtPeriodDate t.stop

/-! ### Route engine -/

/-- `llm_generate_route_plan` output (an oracle input; an unavailable or
malformed plan is the all-`none` record, modelling the empty dict). -/
structure RoutePlan where
  sort_field : Option String
  sort_order : Option String
  metric_label : Option String
  chart_title : Option String
  focus_phrase : Option String
  summary_template : Option String
deriving DecidableEq, Repr

structure RouteRow where
  route : String
  delayed_shipments : Int
  total_delay_minutes : ℚ
  avg_delay_minutes : ℚ
  avg_delivery_time : ℚ
  total_shipments : Int
deriving DecidableEq, Repr

def route_summary_rows (df : List Shipment) : List RouteRow :=
  (groupKeys (df.map fun r => r.route)).map fun k =>
    let g := df.filter fun r => r.route == some k
    ⟨k, countDelayed g, qSum (g.map fun r => r.delay_minutes),
      listMean (g.map fun r => r.delay_minutes),
      listMean (g.map fun r => r.delivery_time), (g.length : Int)⟩

def route_allowed : List (String × String) :=
  [("delayed_shipments", "Delayed Shipments"),
   ("total_delay_minutes", "Total Delay (min)"),
   ("avg_delay_minutes", "Avg Delay (min)"),
   ("avg_delivery_time", "Avg Delivery Time (days)"),
   ("total_shipments", "Total Shipments")]

def RouteRow.field (row : RouteRow) (f : String) : ℚ :=
  if f = "delayed_shipments" then (row.delayed_shipments : ℚ)
  else if f = "total_delay_minutes" then row.total_delay_minutes
  else if f = "avg_delay_minutes" then row.avg_delay_minutes
  else if f = "avg_delivery_time" then row.avg_delivery_time
  else (row.total_shipments : ℚ)

def routeSortField (plan : RoutePlan) : String :=
  match plan.sort_field with
  | some f => if (route_allowed.lookup f).isSome then f
      else ("delayed_shipments")
  | none => ("delayed_shipments")

def routeFocusDefault (ascending : Bool) (sortField : String) : String :=
  if ascending ∧ containsSub sortField ("delay") then ("lowest average delay")
  else if (¬ ascending) ∧ containsSub sortField ("delay") then ("highest delay")
  else if ascending then ("best-performing")
  else ("highest")

def routeAscending (plan : RoutePlan) : Bool :=
  pyLower (pyOr plan.sort_order ("desc")) == "asc"

def routeMetricLabel (plan : RoutePlan) : String :=
  pyOr plan.metric_label ((route_allowed.lookup (routeSortField plan)).getD "")

def routeFocus (plan : RoutePlan) : String :=
  pyOr plan.focus_phrase
    (routeFocusDefault (routeAscending plan) (routeSortField plan))

/-- The grouped rows after the plan-driven sort. -/
def routeSortedRows (plan : RoutePlan) (df : List Shipment) : List RouteRow :=
  sortRowsBy (fun r => RouteRow.field r (routeSortField plan))
    (routeAscending plan) (route_summary_rows df)

/-- The template context built by `_route_performance` from the top row
after sorting. -/
def routeCtx (period metricLabel focus : String) (sortField : String)
    (top : RouteRow) : List (String × PyVal) :=
  [("period", .s period),
   ("top_label", .s top.route),
   ("metric_label", .s metricLabel),
   ("metric_value", format_metric_value (top.field sortField)),
   ("focus_phrase", .s focus),
   ("delayed_shipments", .i top.delayed_shipments),
   ("total_shipments", .i top.total_shipments),
   ("avg_delay_minutes", format_metric_value top.avg_delay_minutes),
   ("total_delay_minutes", format_metric_value top.total_delay_minutes)]

/-- The fixed default sentence of the route engine. -/
def route_default_summary (period metricLabel topLabel : String)
    (metricValue : PyVal) : String :=
  ("Best route for ") ++ period ++ (" by ") ++ pyLower metricLabel
    ++ (" is ") ++ topLabel ++ (" (") ++ metricValue.str ++ (").")

/-- The rendered summary template of `_route_performance` (empty when no
template, an empty template, or a formatting error). -/
def routeRendered (state : AgentState) (plan : RoutePlan) (top : RouteRow) :
    String :=
  format_summary_template plan.summary_template
    (routeCtx (describe_period state.timeframe) (routeMetricLabel plan)
      (routeFocus plan) (routeSortField plan) top)

/-- `_route_performance`. -/
def route_performance (state : AgentState) (plan : RoutePlan)
    (df : List Shipment) : Result :=
  let rows := route_summary_rows df
  match rows with
  | [] => Result.mk ("No route data available.") none none none none none
  | _ :: _ =>
    let sortField := routeSortField plan
    let metricLabel := routeMetricLabel plan
    let chartTitle := pyOr plan.chart_title (metricLabel ++ (" by Route"))
    let sortedRows := routeSortedRows plan df
    let period := describe_period state.timeframe
    match sortedRows with
    | [] =>  -- unreachable: sorting preserves length
      Result.mk ("No route data available.") none none none none none
    | top :: _ =>
      let rendered := routeRendered state plan top
      let summary :=
        if rendered = "" then
          route_default_summary period metricLabel top.route
            (format_metric_value (top.field sortField))
        else rendered
      let chartData := sortedRows.map fun r =>
        ChartPoint.mk r.route (format_metric_value (r.field sortField))
          (some (("Delayed ") ++ toString r.delayed_shipments
            ++ (" / Total ") ++ toString r.total_shipments)) none
      Result.mk summary (some ("route"))
        (some (Chart.mk ("bar") chartTitle (some ("Route")) (some metricLabel)
          chartData (some metricLabel)))
        (some (TableV.mk
          [("route", "Route"), ("delayed_shipments", "Delayed"),
           ("total_delay_minutes", "Total Delay (min)"),
           ("avg_delay_minutes", "Avg Delay (min)"),
           ("avg_delivery_time", "Avg Delivery Time (days)"),
           ("total_shipments", "Total Shipments")]
          (sortedRows.map fun r =>
            [("route", .s r.route),
             ("delayed_shipments", .i r.delayed_shipments),
             ("total_delay_minutes", .q r.total_delay_minutes),
             ("avg_delay_minutes", .q (pyRound r.avg_delay_minutes 2)),
             ("avg_delivery_time", .q (pyRound r.avg_delivery_time 2)),
             ("total_shipments", .i r.total_shipments)])
          none))
        none none

/-! ### Warehouse engine -/

/-- `llm_generate_warehouse_plan` output (oracle input).  The source coerces
`delivery_time_threshold` through `float()` and discards it on
TypeError/ValueError; `delivery_time_threshold` here is the
result of that coercion (`none` when absent or non-numeric). -/
structure WarehousePlan where
  metric_field : Option String
  sort_order : Option String
  metric_label : Option String
  chart_title : Option String
  focus_phrase : Option String
  summary_template : Option String
  delivery_time_threshold : Option ℚ
deriving DecidableEq, Repr

structure WarehouseRow where
  warehouse : String
  avg_delivery_time : ℚ
  delayed_shipments : Int
  total_shipments : Int
  avg_delay_minutes : ℚ
deriving DecidableEq, Repr

def warehouse_summary_rows (df : List Shipment) : List WarehouseRow :=
  (groupKeys (df.map fun r => r.warehouse)).map fun k =>
    let g := df.filter fun r => r.warehouse == some k
    ⟨k, listMean (g.map fun r => r.delivery_time), countDelayed g,
      (g.length : Int), listMean (g.map fun r => r.delay_minutes)⟩

def warehouse_allowed : List (String × String) :=
  [("avg_delivery_time", "Avg Delivery Time (days)"),
   ("delayed_shipments", "Delayed Shipments"),
   ("avg_delay_minutes", "Avg Delay (min)"),
   ("total_shipments", "Total Shipments")]

def WarehouseRow.field (row : WarehouseRow) (f : String) : ℚ :=
  if f = "avg_delivery_time" then row.avg_delivery_time
  else if f = "delayed_shipments" then (row.delayed_shipments : ℚ)
  else if f = "avg_delay_minutes" then row.avg_delay_minutes
  else (row.total_shipments : ℚ)

def warehouseMetricField (plan : WarehousePlan) : String :=
  match plan.metric_field with
  | some f => if (warehouse_allowed.lookup f).isSome then f
      else ("avg_delivery_time")
  | none => ("avg_delivery_time")

def warehouseAscending (plan : WarehousePlan) : Bool :=
  pyLower (pyOr plan.sort_order
    (if startsWithStr (warehouseMetricField plan) ("avg") then ("asc")
     else ("desc"))) == "asc"

/-- The kept rows in plan-driven sort order. -/
def warehouseSortedRows (plan : WarehousePlan) (kept : List WarehouseRow) :
    List WarehouseRow :=
  sortRowsBy (fun r => WarehouseRow.field r (warehouseMetricField plan))
    (warehouseAscending plan) kept

/-- One table row of the warehouse engine (rounded averages). -/
def warehouseRowDict (r : WarehouseRow) : List (String × PyVal) :=
  [("warehouse", .s r.warehouse),
   ("avg_delivery_time", .q (pyRound r.avg_delivery_time 2)),
   ("delayed_shipments", .i r.delayed_shipments),
   ("total_shipments", .i r.total_shipments),
   ("avg_delay_minutes", .q (pyRound r.avg_delay_minutes 2))]

/-- The rows kept after the optional delivery-time threshold filter:
`summary_rows[summary_rows["avg_delivery_time"] > threshold]`. -/
def warehouse_thresholded (rows : List WarehouseRow) (threshold : Option ℚ) :
    List WarehouseRow :=
  match threshold with
  | none => rows
  | some t => rows.filter fun r => decide (t < r.avg_delivery_time)

def warehouseCtx (period metricLabel focus : String) (metricField : String)
    (threshold : Option ℚ) (top : WarehouseRow) : List (String × PyVal) :=
  [("period", .s period),
   ("top_label", .s top.warehouse),
   ("metric_label", .s metricLabel),
   ("metric_value", format_metric_value (top.field metricField)),
   ("focus_phrase", .s focus),
   ("threshold", match threshold with | some t => .q t | none => .none_),
   ("delayed_shipments", .i top.delayed_shipments),
   ("total_shipments", .i top.total_shipments)]

def warehouse_default_summary (focus : String) (threshold : Option ℚ)
    (period topLabel metricLabel : String) (metricValue : PyVal) : String :=
  let extra := match threshold with
    | some t => (" above ") ++ pyFloatRepr t ++ (" days")
    | none => ""
  pyCapitalize focus ++ (" warehouse") ++ extra ++ (" for ") ++ period
    ++ (" is ") ++ topLabel ++ (" with ") ++ pyLower metricLabel ++ (" of ")
    ++ metricValue.str ++ (".")

def warehouseMetricLabel (plan : WarehousePlan) : String :=
  pyOr plan.metric_label
    ((warehouse_allowed.lookup (warehouseMetricField plan)).getD "")

def warehouseFocus (plan : WarehousePlan) : String :=
  pyOr plan.focus_phrase
    (if warehouseAscending plan then ("best-performing") else ("highest"))

/-- The rendered summary template of `_warehouse_performance` (empty when no
template, an empty template, or a formatting error: the source computes
`_format_summary_template(template, template_ctx) if template else ""`). -/
def warehouseRendered (state : AgentState) (plan : WarehousePlan)
    (top : WarehouseRow) : String :=
  format_summary_template plan.summary_template
    (warehouseCtx (describe_period state.timeframe) (warehouseMetricLabel plan)
      (warehouseFocus plan) (warehouseMetricField plan)
      plan.delivery_time_threshold top)

/-- `_warehouse_performance`. -/
def warehouse_performance (state : AgentState) (plan : WarehousePlan)
    (df : List Shipment) : Result :=
  let rows := warehouse_summary_rows df
  match rows with
  | [] => Result.mk ("No warehouse data available.") none none none none none
  | _ :: _ =>
    let metricField := warehouseMetricField plan
    let metricLabel := warehouseMetricLabel plan
    let focus := warehouseFocus plan
    let chartTitle := pyOr plan.chart_title (metricLabel ++ (" by Warehouse"))
    let threshold := plan.delivery_time_threshold
    let kept := warehouse_thresholded rows threshold
    match kept with
    | [] =>
      Result.mk ("No warehouses matched threshold.") none none none none none
    | _ :: _ =>
      let sortedRows := warehouseSortedRows plan kept
      let period := describe_period state.timeframe
      match sortedRows with
      | [] =>  -- unreachable: sorting preserves length
        Result.mk ("No warehouses matched threshold.") none none none none none
      | top :: _ =>
        let rendered := warehouseRendered state plan top
        let summary :=
          if rendered = "" then
            warehouse_default_summary focus threshold period top.warehouse
              metricLabel (format_metric_value (top.field metricField))
          else rendered
        let chartData := sortedRows.map fun r =>
          ChartPoint.mk r.warehouse (format_metric_value (r.field metricField))
            (some (("Delayed ") ++ toString r.delayed_shipments
              ++ (" / Total ") ++ toString r.total_shipments)) none
        Result.mk summary (some ("warehouse"))
          (some (Chart.mk ("bar") chartTitle (some ("Warehouse"))
            (some metricLabel) chartData (some metricLabel)))
          (some (TableV.mk
            [("warehouse", "Warehouse"),
             ("avg_delivery_time", "Avg Delivery (days)"),
             ("avg_delay_minutes", "Avg Delay (min)"),
             ("delayed_shipments", "Delayed"), ("total_shipments", "Total")]
            (sortedRows.map warehouseRowDict)
            none))
          none none

/-! ### Delay-reason engine -/

structure ReasonRow where
  delay_reason : String
  incidents : Int
  total_delay_minutes : ℚ
deriving DecidableEq, Repr

/-- `_delay_reason_breakdown`. -/
def delay_reason_breakdown (_state : AgentState) (df : List Shipment) : Result :=
  let delayedDf := df.filter fun r => decide (0 < r.delay_minutes)
  let rows := (groupKeys (delayedDf.map fun r => r.delay_reason)).map fun k =>
    let g := delayedDf.filter fun r => r.delay_reason == some k
    ReasonRow.mk k (g.length : Int) (qSum (g.map fun r => r.delay_minutes))
  let sortedRows := sortRowsBy (fun r => (r.incidents : ℚ)) false rows
  let chartData := sortedRows.map fun r =>
    ChartPoint.mk r.delay_reason (.i r.incidents)
      (some (("Total delay: ") ++ toString (ratTrunc r.total_delay_minutes)
        ++ (" minutes"))) none
  let summary := ("Total delayed shipments by reason: ") ++
    pyJoin (", ") (sortedRows.map fun r =>
      r.delay_reason ++ (" (") ++ toString r.incidents ++ (")"))
  Result.mk summary (some ("delay_reason"))
    (some (Chart.mk ("pie") ("Delay Incidents by Reason") none none
      chartData none))
    (some (TableV.mk
      [("delay_reason", "Delay Reason"), ("incidents", "Incidents"),
       ("total_delay_minutes", "Total Delay (min)")]
      (sortedRows.map fun r =>
        [("delay_reason", .s r.delay_reason),
         ("incidents", .i r.incidents),
         ("total_delay_minutes", .q r.total_delay_minutes)])
      none))
    none none

/-! ### Delay-statistics engine -/

/-- `llm_generate_delay_plan` output (oracle input).  `snippet_metrics` is
the outcome of `_execute_generated_code` on the plan field `python_code`:
the key-to-number mapping computed by the sandboxed snippet, `[]` when there is no code, the
execution fails, or the result is not a dict (all of which the source
collapses to the falsy `{}`). -/
structure DelayPlan where
  snippet_metrics : List (String × PyVal)
  summary_template : Option String
deriving DecidableEq, Repr

def default_delay_metrics (df : List Shipment) : List (String × PyVal) :=
  [("total_delay_minutes", .q (qSum (df.map fun r => r.delay_minutes))),
   ("average_delay_minutes", .q (listMean (df.map fun r => r.delay_minutes))),
   ("shipment_count", .i (df.length : Int))]

/-- `_default_delay_summary` (lookups default to 0 like `metrics.get`). -/
def default_delay_summary (metrics : List (String × PyVal)) (period : String) :
    String :=
  let totalS := (((metrics.lookup ("total_delay_minutes")).getD (.q 0)).fixed 0).getD ""
  let avgS := (((metrics.lookup ("average_delay_minutes")).getD (.q 0)).fixed 1).getD ""
  let countS := ((metrics.lookup ("shipment_count")).getD (.i 0)).str
  ("Total delay time for ") ++ period ++ (" is ") ++ totalS
    ++ (" minutes across ") ++ countS ++ (" shipments. Average delay across ")
    ++ period ++ (" is ") ++ avgS ++ (" minutes per shipment.")

structure DayRow where
  date : Date
  avg_delay : ℚ
  delayed_shipments : Int
deriving DecidableEq, Repr

/-- Distinct calendar days of the frame, ascending (groupby sorts keys). -/
def distinctDatesSorted (df : List Shipment) : List Date :=
  List.insertionSort (fun a b : Date => a.toOrd ≤ b.toOrd)
    (df.map fun r => r.date).dedup

/-- `_delay_statistics`.  Note: when a template is supplied and fails to
render, the summary stays empty - this engine has no `if not summary`
fallback to the default sentence, unlike the route and warehouse engines. -/
def delay_statistics (state : AgentState) (plan : DelayPlan)
    (df : List Shipment) : Result :=
  let period := describe_period state.timeframe
  let metrics := if plan.snippet_metrics = [] then default_delay_metrics df
    else plan.snippet_metrics
  let ctx := ("period", PyVal.s period) :: metrics
  let summary := match plan.summary_template with
    | some t =>
      if t = "" then default_delay_summary metrics period
      else format_summary_template (some t) ctx
    | none => default_delay_summary metrics period
  let daily := (distinctDatesSorted df).map fun d =>
    let g := df.filter fun r => r.date == d
    DayRow.mk d (listMean (g.map fun r => r.delay_minutes)) (countDelayed g)
  let chartData := daily.map fun r =>
    ChartPoint.mk r.date.iso (.q (pyRound r.avg_delay 2)) none none
  Result.mk summary (some ("delay"))
    (some (Chart.mk ("line") ("Average Delay by Day") (some ("Date"))
      (some ("Avg Delay (min)")) chartData (some ("Avg Delay"))))
    (some (TableV.mk
      [("date", "Date"), ("avg_delay", "Avg Delay (min)"),
       ("delayed_shipments", "Delayed Shipments")]
      (daily.map fun r =>
        [("date", .s r.date.iso),
         ("avg_delay", .q (pyRound r.avg_delay 2)),
         ("delayed_shipments", .i r.delayed_shipments)])
      none))
    none none

/-! ### Overview engine -/

/-- `_quick_overview`. -/
def quick_overview (_state : AgentState) (df : List Shipment) : Result :=
  let totalShipments := df.length
  let delayed := countDelayed df
  let avgDelivery := listMean (df.map fun r => r.delivery_time)
  let avgDelay := listMean (df.map fun r => r.delay_minutes)
  let summary := ("Processed ") ++ toString totalShipments
    ++ (" shipments. ") ++ toString delayed
    ++ (" experienced delays. Average delivery time is ")
    ++ fmtFixed 2 avgDelivery ++ (" days with ") ++ fmtFixed 1 avgDelay
    ++ (" minutes of delay.")
  let trend := (distinctDatesSorted df).map fun d =>
    (d, qSum ((df.filter fun r => r.date == d).map fun r => r.delay_minutes))
  let chartData := trend.map fun p =>
    ChartPoint.mk p.1.iso (.q p.2) none none
  Result.mk summary (some ("analytics"))
    (some (Chart.mk ("line") ("Total Delay Minutes Over Time")
      (some ("Date")) (some ("Total Delay (min)")) chartData
      (some ("Total Delay"))))
    none none none

/-- `run_analytics_intent`: filter, short-circuit on an empty subset, then
dispatch on the intent (plans are oracle inputs for the three engines that
request one). -/
def run_analytics_intent (state : AgentState) (rp : RoutePlan)
    (wp : WarehousePlan) (dp : DelayPlan) : Result :=
  let df := apply_filters_analytics state
  if df = [] then
    Result.mk
      ("I could not find any matching shipments for the requested filters.")
      none none none none none
  else
    let intent := state.intent.getD ("analytics")
    if intent = "route" then route_performance state rp df
    else if intent = "warehouse" then warehouse_performance state wp df
    else if intent = "delay_reason" then delay_reason_breakdown state df
    else if intent = "delay" then delay_statistics state dp df
    else quick_overview state df

/-! ## Prediction agent (sub_agents/prediction_agent/agent.py) -/

/-- `_apply_filters` (prediction agent): timeframe range filter, then -
when `include_entity_filters` - one exact-match filter per set,
non-None filter value. -/
def apply_filters_prediction (state : AgentState) (includeEntityFilters : Bool) :
    List Shipment :=
  let df := state.data
  let df := match state.timeframe with
    | none => df
    | some tf =>
      (df.filter fun r => decide (tf.start ≤ r.date.toOrd)).filter
        fun r => decide (r.date.toOrd ≤ tf.stop)
  if includeEntityFilters then
    let df := match state.filters.route with
      | none => df
      | some v => df.filter fun r => r.route == some v
    let df := match state.filters.warehouse with
      | none => df
      | some v => df.filter fun r => r.warehouse == some v
    let df := match state.filters.delay_reason with
      | none => df
      | some v => df.filter fun r => r.delay_reason == some v
    df
  else df

/-- `daily` in `run_prediction_intent`: group by calendar day, average
delay, sorted by date. -/
def daily_series (df : List Shipment) : List (Date × ℚ) :=
  (distinctDatesSorted df).map fun d =>
    (d, listMean ((df.filter fun r => r.date == d).map fun r => r.delay_minutes))

/-- `np.polyfit(x, y, 1)`: the closed-form least-squares line over exact
rationals, which is the unique minimiser whenever the x values are not all
equal (always the case for two or more distinct days); the degenerate
denominator-zero case is unreachable under the guards of the caller. -/
def polyfitSlopeIntercept (pts : List (ℚ × ℚ)) : ℚ × ℚ :=
  let n : ℚ := (pts.length : ℚ)
  let sx := qSum (pts.map fun p => p.1)
  let sy := qSum (pts.map fun p => p.2)
  let sxx := qSum (pts.map fun p => p.1 * p.1)
  let sxy := qSum (pts.map fun p => p.1 * p.2)
  let denom := n * sxx - sx * sx
  let slope := (n * sxy - sx * sy) / denom
  let intercept := (sy - slope * sx) / n
  (slope, intercept)

/-- The forecast loop: one projected point per future day, clamped to 0. -/
def forecast_points (slope intercept : ℚ) (lastOrd : Int) (horizon : Int) :
    List FPoint :=
  (List.range horizon.toNat).map fun (i : Nat) =>
    let nextOrd : Int := lastOrd + (i : Int) + 1
    FPoint.mk nextOrd (max (slope * (nextOrd : ℚ) + intercept) 0)

/-- One route x warehouse x delay_reason combination. -/
structure Combo where
  route : String
  warehouse : String
  delay_reason : String
deriving DecidableEq, Repr

/-- Column names of `pd.get_dummies(df[feature_cols], prefix_sep="=")`:
per original column (route, warehouse, delay_reason in order), one dummy
per distinct non-NaN value, in sorted order. -/
def encoded_columns (df : List Shipment) : List String :=
  (sortStrings ((df.map fun r => r.route).filterMap id).dedup).map
      (fun v => ("route=") ++ v)
    ++ (sortStrings ((df.map fun r => r.warehouse).filterMap id).dedup).map
      (fun v => ("warehouse=") ++ v)
    ++ (sortStrings ((df.map fun r => r.delay_reason).filterMap id).dedup).map
      (fun v => ("delay_reason=") ++ v)

/-- `_predict_linear`: one-hot encode the combination against the training
columns and take the dot product with the fitted coefficients; any shape
mismatch is the caught exception path (`none`). -/
def predict_linear (coeffs : List ℚ) (columns : List String) (combo : Combo) :
    Option ℚ :=
  let featureColumns := columns.drop 1
  let names := [("route=") ++ combo.route, ("warehouse=") ++ combo.warehouse,
    ("delay_reason=") ++ combo.delay_reason]
  let vector := (1 : ℚ) :: featureColumns.map fun c =>
    if c ∈ names then (1 : ℚ) else 0
  if coeffs.length = vector.length then
    some (qSum ((coeffs.zip vector).map fun p => p.1 * p.2))
  else none

/-- Restrict rows to the combination on the selected key columns. -/
def filterCombo (df : List Shipment) (c : Combo)
    (useRoute useWarehouse useReason : Bool) : List Shipment :=
  df.filter fun r =>
    (!useRoute || r.route == some c.route) &&
    (!useWarehouse || r.warehouse == some c.warehouse) &&
    (!useReason || r.delay_reason == some c.delay_reason)

/-- `_group_average_delay`: exact-combination mean, then the fallback
orders of the source (two keys, then one), then the overall mean. -/
def group_average_delay (df : List Shipment) (c : Combo) : Option ℚ :=
  let subset := filterCombo df c true true true
  if subset ≠ [] then some (listMean (subset.map fun r => r.delay_minutes))
  else
    let tries : List (Bool × Bool × Bool) :=
      [(true, true, false), (true, false, true), (false, true, true),
       (true, false, false), (false, true, false), (false, false, true)]
    match tries.findSome? (fun t =>
      let partialDf := filterCombo df c t.1 t.2.1 t.2.2
      if partialDf ≠ [] then
        some (listMean (partialDf.map fun r => r.delay_minutes))
      else none) with
    | some v => some v
    | none =>
      if df ≠ [] then some (listMean (df.map fun r => r.delay_minutes))
      else none

/-- `[filters[col]] if filters.get(col) else sorted(distinct non-NaN)`:
a truthy filter value restricts the dimension to itself. -/
def dimensionValues (filterVal : Option String) (allVals : List String) :
    List String :=
  match filterVal with
  | some v => if v = "" then allVals else [v]
  | none => allVals

/-- `_build_ensemble_estimates`.  `lstsqCoeffs` is the output of
`np.linalg.lstsq` on the one-hot design matrix (an external floating-point
solver; `none` models the caught LinAlgError path).  Every property claimed
below holds for every possible coefficient vector. -/
def build_ensemble_estimates (df : List Shipment) (filters : Filters)
    (lstsqCoeffs : Option (List ℚ)) : List Estimate :=
  if df = [] then []
  else
    let dummyCols := encoded_columns df
    if dummyCols = [] then []  -- encoded.empty: all categorical cells NaN
    else
      let encodedCols := ("intercept") :: dummyCols
      let routes := dimensionValues filters.route
        (sortStrings ((df.map fun r => r.route).filterMap id).dedup)
      let warehouses := dimensionValues filters.warehouse
        (sortStrings ((df.map fun r => r.warehouse).filterMap id).dedup)
      let reasons := dimensionValues filters.delay_reason
        (sortStrings ((df.map fun r => r.delay_reason).filterMap id).dedup)
      let combos := routes.flatMap fun rt => warehouses.flatMap fun wh =>
        reasons.map fun rs => Combo.mk rt wh rs
      let estimates := combos.filterMap fun c =>
        let predictions :=
          (match lstsqCoeffs with
            | some coeffs => (predict_linear coeffs encodedCols c).toList
            | none => []) ++ (group_average_delay df c).toList
        match predictions with
        | [] => none
        | _ :: _ => some (Estimate.mk c.route c.warehouse c.delay_reason
            (pyRound (max (listMean predictions) 0) 2))
      List.insertionSort
        (fun a b => a.predicted_delay_minutes ≤ b.predicted_delay_minutes)
        estimates

/-- One generated recommendation line (source encoding artifact "â†’"
reproduced verbatim). -/
def recLine (e : Estimate) : String :=
  let routeLabel := e.route
  let routePhrase :=
    if startsWithStr (pyLower routeLabel) ("route") then routeLabel
    else ("Route ") ++ routeLabel
  let reasonClause :=
    if pyLower e.delay_reason = "none" then ("minimal weather risk")
    else ("watch for ") ++ pyLower e.delay_reason ++ (" delays")
  routePhrase ++ (" via ") ++ e.warehouse ++ (" â†’ ~")
    ++ fmtFixed 1 e.predicted_delay_minutes ++ (" min; ") ++ reasonClause
    ++ (".")

/-- `_format_recommendations`: text for the first three estimates. -/
def format_recommendations (estimates : List Estimate) : List String :=
  (estimates.take 3).map recLine

/-- `_primary_delay_risk`: among delayed rows, the reason with the highest
mean delay. -/
def primary_delay_risk (df : List Shipment) : Option String :=
  let delayedDf := df.filter fun r => decide (0 < r.delay_minutes)
  if delayedDf = [] then none
  else
    let grouped := (groupKeys (delayedDf.map fun r => r.delay_reason)).map
      fun k => (k, listMean ((delayedDf.filter
        fun r => r.delay_reason == some k).map fun r => r.delay_minutes))
    match sortRowsBy (fun p => p.2) false grouped with
    | [] => none  -- delayed rows exist but every reason cell is NaN
    | top :: _ => some (("Primary disruption driver: ") ++ top.1 ++ (" (~")
        ++ fmtFixed 1 top.2 ++ (" minutes when it occurs)."))

/-- `_describe_horizon`. -/
def describe_horizon (days : Int) : String :=
  if days % 30 = 0 then
    let months := days / 30
    if months = 0 then ("0 days")
    else toString months ++ (" month") ++ (if months ≠ 1 then ("s") else "")
  else if days % 7 = 0 ∧ 7 ≤ days then
    let weeks := days / 7
    toString weeks ++ (" week") ++ (if weeks ≠ 1 then ("s") else "")
  else toString days ++ (" day") ++ (if days ≠ 1 then ("s") else "")

/-- `", ".join(f"k=v")` over the filters dict (insertion order: route,
warehouse, delay_reason). -/
def filtersText (f : Filters) : String :=
  pyJoin (", ")
    ((match f.route with | some v => [("route=") ++ v] | none => [])
      ++ (match f.warehouse with | some v => [("warehouse=") ++ v] | none => [])
      ++ (match f.delay_reason with
          | some v => [("delay_reason=") ++ v] | none => []))

def filtersNonempty (f : Filters) : Bool :=
  f.route.isSome || f.warehouse.isSome || f.delay_reason.isSome

/-- The headline sentence of a successful prediction run. -/
def prediction_headline (horizon : Int) (windowAvg : ℚ) : String :=
  ("Projected average delay over the next ") ++ describe_horizon horizon
    ++ (" is ") ++ fmtFixed 1 windowAvg ++ (" minutes per shipment.")

/-- `run_prediction_intent`. -/
def run_prediction_intent (state : AgentState)
    (lstsqCoeffs : Option (List ℚ)) : Result :=
  let horizon := effective_horizon state.forecast_horizon_days
  let filters := state.filters
  let df := apply_filters_prediction state true
  if df = [] then
    Result.mk ("Not enough data points to produce a prediction.") none
      none none (some []) (some (Metrics.mk horizon []))
  else
    let daily := daily_series df
    if daily.length < 3 then
      Result.mk ("I need at least 3 days of delay history to project forward.")
        none none none (some []) (some (Metrics.mk horizon []))
    else
      let pts := daily.map fun p => ((p.1.toOrd : ℚ), p.2)
      let si := polyfitSlopeIntercept pts
      let lastOrd := (daily.map fun p => p.1.toOrd).getLastD 0
      let fps := forecast_points si.1 si.2 lastOrd horizon
      let windowAvg := listMean (fps.map fun p => p.predicted_avg_delay)
      let baseDf := apply_filters_prediction state false
      let estimates := build_ensemble_estimates baseDf filters lstsqCoeffs
      let recommendations := format_recommendations estimates
      let riskNote := primary_delay_risk baseDf
      let summaryParts :=
        [prediction_headline horizon windowAvg]
          ++ (if filtersNonempty filters then
                [("Filters applied: ") ++ filtersText filters ++ (".")]
              else [])
          ++ (match recommendations with
              | [] => []
              | r0 :: _ => [("Top recommendation: ") ++ r0])
          ++ (match riskNote with | some rn => [rn] | none => [])
      let summary := pyJoin (" ") summaryParts
      let chartData :=
        (daily.map fun p =>
          ChartPoint.mk p.1.iso (.q (pyRound p.2 2)) none (some false))
          ++ (fps.map fun p =>
            ChartPoint.mk (Date.ofOrd p.dateOrd).iso
              (.q (pyRound p.predicted_avg_delay 2)) none (some true))
      Result.mk summary (some ("prediction"))
        (some (Chart.mk ("line") ("Average Delay Forecast") (some ("Date"))
          (some ("Avg Delay (min)")) chartData (some ("Avg Delay"))))
        (some (TableV.mk
          [("date", "Date"), ("avg_delay", "Actual Avg Delay")]
          (daily.map fun p =>
            [("date", .s p.1.iso), ("avg_delay", .q (pyRound p.2 2))])
          (some fps)))
        (some recommendations)
        (some (Metrics.mk horizon (estimates.take 5)))

/-! ## Concrete fixtures for counterexamples and witnesses -/

def noFilters : Filters := ⟨none, none, none⟩

def rpNone : RoutePlan := ⟨none, none, none, none, none, none⟩
def wpNone : WarehousePlan := ⟨none, none, none, none, none, none, none⟩
def dpNone : DelayPlan := ⟨[], none⟩

def shipA1 : Shipment := ⟨1, some ("A"), some ("W1"), 3, 10, some ("none"), ⟨2024, 1, 1⟩⟩
def shipB2 : Shipment := ⟨2, some ("B"), some ("W2"), 4, 20, some ("Weather"), ⟨2024, 1, 2⟩⟩
def shipA3 : Shipment := ⟨3, some ("A"), some ("W1"), 5, 30, some ("Traffic"), ⟨2024, 1, 3⟩⟩

/-- Three shipments on three consecutive days. -/
def dsThree : List Shipment := [shipA1, shipB2, shipA3]

/-- Two shipments on two distinct days. -/
def dsTwo : List Shipment := [shipA1, shipB2]

/-- One shipment dated 2024-01-05 (ordinal 739195 in this model). -/
def dsOne : List Shipment :=
  [⟨1, some ("A"), some ("W1"), 5, 10, some ("none"), ⟨2024, 1, 5⟩⟩]

def stPred3 : AgentState :=
  ⟨("forecast the delays"), dsThree, some ("prediction"), none, noFilters, some 2⟩
def stPred2 : AgentState :=
  ⟨("forecast the delays"), dsTwo, some ("prediction"), none, noFilters, some 5⟩
def stEmpty : AgentState :=
  ⟨("show routes"), [], some ("route"), none, noFilters, none⟩
def stWare : AgentState :=
  ⟨("warehouse stats"), dsOne, some ("warehouse"), none, noFilters, none⟩
def stDelay : AgentState :=
  ⟨("delay stats"), dsOne, some ("delay"), none, noFilters, none⟩
def stRouteOne : AgentState :=
  ⟨("route stats"), dsOne, some ("route"), none, noFilters, none⟩

/-- A warehouse plan whose threshold (5) equals the average delivery time
of the single grouped row. -/
def wpThresh5 : WarehousePlan := ⟨none, none, none, none, none, none, some 5⟩
def wpThresh4 : WarehousePlan := ⟨none, none, none, none, none, none, some 4⟩

/-- A delay plan whose template references a missing placeholder. -/
def dpBadTemplate : DelayPlan := ⟨[], some ("bad \x7bmissing\x7d")⟩

/-- Extractor metadata: relative timeframe of 2 years. -/
def mdYear : MetaTF :=
  ⟨some ("relative"), some ⟨some 2, some ("year"), none, none⟩⟩

/-- Extractor metadata: absolute timeframe whose start is after its end. -/
def mdAbsBad : MetaTF := ⟨some ("absolute"), some ⟨none, none, some 100, some 50⟩⟩

/-- Extractor metadata: relative timeframe with a zero amount. -/
def mdRelZero : MetaTF :=
  ⟨some ("relative"), some ⟨some 0, some ("day"), none, none⟩⟩

/-! ## Ordering instances for the estimate sort relation -/

instance : IsTotal Estimate
    (fun a b => a.predicted_delay_minutes ≤ b.predicted_delay_minutes) :=
  ⟨fun a b => le_total a.predicted_delay_minutes b.predicted_delay_minutes⟩

instance : IsTrans Estimate
    (fun a b => a.predicted_delay_minutes ≤ b.predicted_delay_minutes) :=
  ⟨fun _ _ _ ha hb => le_trans ha hb⟩

/-! ## Helper lemmas -/

theorem llm_classify_intent_mem (raw : Option String) (i : String)
    (h : llm_classify_intent raw = some i) : i ∈ INTENTS := by
  cases raw with
  | none => simp [llm_classify_intent] at h
  | some s =>
    simp only [llm_classify_intent] at h
    split_ifs at h with hin
    exact (Option.some.inj h) ▸ hin

theorem classify_llm_or_heuristic_mem (q : String) (amb : Bool)
    (raw : Option String) : classify_llm_or_heuristic q amb raw ∈ INTENTS := by
  unfold classify_llm_or_heuristic
  cases hllm : llm_classify_intent raw with
  | some i =>
    simp only []
    split_ifs
    · decide
    · exact llm_classify_intent_mem raw i hllm
  | none =>
    simp only []
    split_ifs <;> decide

theorem last_reusable_intent_mem (history : List HistoryEntry) (i : String)
    (h : last_reusable_intent history = some i) :
    ∃ e ∈ history, e.intent = some i := by
  unfold last_reusable_intent at h
  rw [List.findSome?_eq_some_iff] at h
  obtain ⟨l₁, e, l₂, hsplit, hfe, -⟩ := h
  have he : e ∈ history.reverse := by
    rw [hsplit]
    exact List.mem_append_right _ (List.mem_cons_self _ _)
  refine ⟨e, List.mem_reverse.mp he, ?_⟩
  cases hei : e.intent with
  | none => rw [hei] at hfe; cases hfe
  | some j =>
    rw [hei] at hfe
    simp only [] at hfe
    split_ifs at hfe
    exact hfe

theorem convert_unit_to_days_pos (v : Int) (u : String) (hv : 1 ≤ v) :
    1 ≤ convert_unit_to_days v u := by
  unfold convert_unit_to_days
  dsimp only
  split_ifs <;> omega

theorem october_toOrd_le (y : Int) :
    Date.toOrd ⟨y, 10, 1⟩ ≤ Date.toOrd ⟨y, 10, 31⟩ := by
  simp only [Date.toOrd]
  norm_num

theorem sortRowsBy_perm {α : Type} (key : α → ℚ) (asc : Bool) (l : List α) :
    (sortRowsBy key asc l).Perm l := by
  unfold sortRowsBy
  split_ifs <;> exact List.perm_insertionSort _ _

theorem forecast_points_length (slope intercept : ℚ) (lastOrd horizon : Int) :
    ((forecast_points slope intercept lastOrd horizon).length : Int)
      = (horizon.toNat : Int) := by
  unfold forecast_points
  simp only [List.length_map, List.length_range]

theorem pyJoin_cons (sep a : String) (l : List String) :
    ∃ rest, pyJoin sep (a :: l) = a ++ rest := by
  cases l with
  | nil => exact ⟨"", by simp [pyJoin]⟩
  | cons b t =>
    refine ⟨sep ++ pyJoin sep (b :: t), ?_⟩
    show a ++ sep ++ pyJoin sep (b :: t) = a ++ (sep ++ pyJoin sep (b :: t))
    rw [String.append_assoc]

/-! ## Claim C1 -/

/-- C1 counterexample: the claim quantifies over any caller-owned history
list, but the context-reuse path copies the prior intent verbatim, so a
history entry whose intent is not in the vocabulary ("bogus") makes the
stage assign an out-of-vocabulary intent for a short domain-free query. -/
theorem classify_intent_escapes_vocabulary :
    classify_intent ("status") [HistoryEntry.mk (some ("bogus"))] none
        = ("bogus")
      ∧ ("bogus") ∉ INTENTS := by decide

/-- C1 (amended): for every query, every classifier reply and every history
whose recorded intents all lie in the closed vocabulary - which is every
history the pipeline itself ever appends - the intent-resolution stage
terminates (it is a total function) and assigns a member of the
eleven-value vocabulary, on every path including context reuse. -/
theorem classify_intent_stays_in_vocabulary (query : String)
    (history : List HistoryEntry) (rawIntent : Option String)
    (hh : ∀ e ∈ history, ∀ i, e.intent = some i → i ∈ INTENTS) :
    classify_intent query history rawIntent ∈ INTENTS := by
  unfold classify_intent
  dsimp only
  split_ifs with h1 h2 h3
  · decide
  · decide
  · cases hlr : last_reusable_intent history with
    | some i =>
      obtain ⟨e, he, hei⟩ := last_reusable_intent_mem history i hlr
      exact hh e he i hei
    | none => exact classify_llm_or_heuristic_mem _ _ _
  · exact classify_llm_or_heuristic_mem _ _ _

/-- C1 witness: the amended theorem applied to the query "status" with a
one-entry history carrying the vocabulary intent "route". -/
theorem classify_intent_stays_in_vocabulary_witness :
    classify_intent ("status") [HistoryEntry.mk (some ("route"))] none
      ∈ INTENTS := by
  apply classify_intent_stays_in_vocabulary
  intro e he i hi
  have he' : e = HistoryEntry.mk (some ("route")) := by simpa using he
  subst he'
  have hi' : ("route") = i := by simpa using hi
  subst hi'
  decide

/-! ## Claim C2 -/

/-- C2 (code bug evidence): for a relative timeframe of 2 years,
`_convert_unit_to_days` falls through to `return value`, so the resolved
window is 2 days (start = max date - 2), not the 2 x 365 days that the
multiplier table of the spec prescribes. -/
theorem relative_year_timeframe_two_days :
    resolve_timeframe (some mdYear) dsOne = some (TF.mk (739195 - 2) 739195)
      ∧ convert_unit_to_days 2 ("year") = 2
      ∧ convert_unit_to_days 2 ("year") ≠ 2 * 365 := by decide

/-! ## Claim C10 -/

/-- C10 counterexample: the claim as stated fails for "hi thanks" - it has
at most 4 words and its stripped text begins with the greeting token "hi",
yet the gratitude heuristic fires first, so the resolved intent is
gratitude, not greeting. -/
theorem greeting_prefix_claim_counterexample :
    (wordCount (pyLower ("hi thanks")) ≤ 4
      ∧ greeting_tokens.any
          (fun t => startsWithStr (pyStrip (pyLower ("hi thanks"))) t) = true)
      ∧ classify_intent ("hi thanks") [] none = ("gratitude")
      ∧ classify_intent ("hi thanks") [] none ≠ ("greeting") := by decide

/-- C10 (amended): the greeting heuristic matches string prefixes, not
whole first words: every query of at most 4 words whose stripped lowercase
text begins with the characters of a greeting token resolves to greeting -
provided no gratitude token occurs in the query, since the gratitude
heuristic runs first. -/
theorem greeting_prefix_heuristic (query : String)
    (history : List HistoryEntry) (rawIntent : Option String)
    (hg : ∀ t ∈ gratitude_tokens, containsSub (pyLower query) t = false)
    (hw : wordCount (pyLower query) ≤ 4)
    (hp : greeting_tokens.any
      (fun t => startsWithStr (pyStrip (pyLower query)) t) = true) :
    classify_intent query history rawIntent = ("greeting") := by
  unfold classify_intent
  dsimp only
  rw [if_neg, if_pos]
  · exact ⟨hp, hw⟩
  · rintro ⟨hany, -⟩
    obtain ⟨t, ht, hct⟩ := List.any_eq_true.mp hany
    rw [hg t ht] at hct
    cases hct

/-- C10 witness: the amended theorem at the example given in the claim,
"highest delay route" (3 words, begins with "hi", no gratitude token). -/
theorem greeting_prefix_heuristic_witness :
    classify_intent ("highest delay route") [] none = ("greeting") :=
  greeting_prefix_heuristic ("highest delay route") [] none (by decide)
    (by decide) (by decide)

/-! ## Claim C3 -/

theorem october_timeframe_ordered (df : List Shipment) (tf : TF)
    (h : october_timeframe df = some tf) : tf.start ≤ tf.stop := by
  unfold october_timeframe at h
  cases hf : df.filter (fun r => decide (r.date.m = 10)) with
  | nil => rw [hf] at h; cases h
  | cons r rs =>
    rw [hf] at h
    cases h
    exact october_toOrd_le _

theorem resolve_timeframe_ordered_or_absolute (tfm : Option MetaTF)
    (df : List Shipment) (tf : TF)
    (h : resolve_timeframe tfm df = some tf) :
    tf.start ≤ tf.stop ∨
      ∃ t, tfm = some t ∧ t.type_ = some ("absolute") ∧
        (t.value.getD TFValue.empty).start = some tf.start ∧
        (t.value.getD TFValue.empty).stop = some tf.stop := by
  cases tfm with
  | none => simp [resolve_timeframe] at h
  | some t =>
    simp only [resolve_timeframe] at h
    split_ifs at h with hrel habs
    · -- relative branch
      cases ha : (t.value.getD TFValue.empty).amount with
      | none => rw [ha] at h; cases h
      | some a =>
        cases hu : (t.value.getD TFValue.empty).unit with
        | none => rw [ha, hu] at h; cases h
        | some u =>
          rw [ha, hu] at h
          dsimp only at h
          by_cases hle : ratTrunc a ≤ 0
          · rw [if_pos hle] at h; cases h
          · rw [if_neg hle] at h
            cases h
            left
            have h1 : 1 ≤ convert_unit_to_days (ratTrunc a) u :=
              convert_unit_to_days_pos _ _ (by omega)
            simp only []
            omega
    · -- absolute branch
      cases hs : (t.value.getD TFValue.empty).start with
      | none => rw [hs] at h; cases h
      | some s =>
        cases he : (t.value.getD TFValue.empty).stop with
        | none => rw [hs, he] at h; cases h
        | some e =>
          rw [hs, he] at h
          cases h
          exact Or.inr ⟨t, rfl, habs, hs, he⟩

/-- C3 (amended): every timeframe the augmentation stage produces on a
fresh state satisfies start less-or-equal end, except that the absolute
branch echoes the extractor-supplied bounds unvalidated (so ordering there
holds only if the supplied bounds are ordered); and a relative resolution
whose truncated amount is not positive resolves to no timeframe. -/
theorem augment_timeframe_ordered_or_absolute (intent : Option String)
    (query : String) (df : List Shipment) (tfm : Option MetaTF)
    (_hdf : df ≠ []) :
    (∀ tf : TF, augment_timeframe intent none query df tfm = some tf →
        tf.start ≤ tf.stop ∨
          ∃ t, tfm = some t ∧ t.type_ = some ("absolute") ∧
            (t.value.getD TFValue.empty).start = some tf.start ∧
            (t.value.getD TFValue.empty).stop = some tf.stop) ∧
    (∀ t a, tfm = some t → t.type_ = some ("relative") →
        (t.value.getD TFValue.empty).amount = some a → ratTrunc a ≤ 0 →
        resolve_timeframe tfm df = none) := by
  constructor
  · intro tf h
    unfold augment_timeframe at h
    split_ifs at h with hskip
    revert h
    cases hres : resolve_timeframe tfm df with
    | some tf' =>
      intro h
      cases h
      exact resolve_timeframe_ordered_or_absolute tfm df _ hres
    | none =>
      intro h
      dsimp only at h
      split_ifs at h with hlw hoct hlm
      · cases h; left; simp only []; omega
      · left; exact october_timeframe_ordered df tf h
      · cases h; left; simp only []; omega
  · intro t a htm htype ha ha0
    subst htm
    simp only [resolve_timeframe]
    rw [if_pos htype, ha]
    cases hu : (t.value.getD TFValue.empty).unit with
    | none => rfl
    | some u =>
      dsimp only
      rw [if_pos ha0]

/-- C3 counterexample: the absolute branch performs no ordering check, so
extractor metadata with start after end yields a timeframe whose start
exceeds its end, refuting the claim as stated. -/
theorem absolute_timeframe_unordered :
    augment_timeframe (some ("route")) none ("show stats") dsOne
        (some mdAbsBad) = some (TF.mk 100 50)
      ∧ ¬ ((100 : Int) ≤ 50) := by decide

/-- C3 witness: the amended theorem applied to the "last week" heuristic on
a one-row dataset (an ordered window) and to a relative resolution with a
zero amount (no timeframe). -/
theorem augment_timeframe_ordered_witness :
    ((TF.mk 739188 739195).start ≤ (TF.mk 739188 739195).stop ∨
      ∃ t, (none : Option MetaTF) = some t ∧ t.type_ = some ("absolute") ∧
        (t.value.getD TFValue.empty).start = some (TF.mk 739188 739195).start ∧
        (t.value.getD TFValue.empty).stop = some (TF.mk 739188 739195).stop) ∧
    resolve_timeframe (some mdRelZero) dsOne = none := by
  constructor
  · exact (augment_timeframe_ordered_or_absolute (some ("route"))
      ("last week") dsOne none (by decide)).1 (TF.mk 739188 739195) (by decide)
  · exact (augment_timeframe_ordered_or_absolute (some ("route"))
      ("delay stats") dsOne (some mdRelZero) (by decide)).2 mdRelZero 0 rfl
      (by decide) (by decide) (by decide)

/-! ## Claim C7 -/

/-- C7: for every state and every plan triple, an empty working subset
after the timeframe and exact-match filters - in particular a 0-row
dataset - makes every analytic intent return the fixed "could not find any
matching shipments" result with null chart and table; no exception is
possible (the function is total). -/
theorem run_analytics_empty_subset (state : AgentState) (rp : RoutePlan)
    (wp : WarehousePlan) (dp : DelayPlan)
    (h : apply_filters_analytics state = []) :
    run_analytics_intent state rp wp dp =
      Result.mk
        ("I could not find any matching shipments for the requested filters.")
        none none none none none := by
  unfold run_analytics_intent
  dsimp only
  rw [if_pos h]

/-- C7 witness: the theorem applied to a 0-row dataset with intent route. -/
theorem run_analytics_empty_subset_witness :
    run_analytics_intent stEmpty rpNone wpNone dpNone =
      Result.mk
        ("I could not find any matching shipments for the requested filters.")
        none none none none none :=
  run_analytics_empty_subset stEmpty rpNone wpNone dpNone (by decide)

/-! ## Claim C5 -/

/-- C5: for every prediction run whose filtered dataset has fewer than 3
distinct calendar days (0 because the subset is empty, or 1 or 2), the
result is the fixed insufficient-history payload: a fixed summary sentence
(one fixed sentence for the empty subset, another for 1-2 days), null
chart and table, an empty recommendations list, and empty ensemble
metrics. -/
theorem run_prediction_insufficient_history (state : AgentState)
    (coeffs : Option (List ℚ))
    (hd : (daily_series (apply_filters_prediction state true)).length < 3) :
    (run_prediction_intent state coeffs).chart = none ∧
    (run_prediction_intent state coeffs).table = none ∧
    (run_prediction_intent state coeffs).recommendations = some [] ∧
    (run_prediction_intent state coeffs).metrics =
      some (Metrics.mk (effective_horizon state.forecast_horizon_days) []) ∧
    (run_prediction_intent state coeffs).summary =
      (if apply_filters_prediction state true = [] then
        ("Not enough data points to produce a prediction.")
      else ("I need at least 3 days of delay history to project forward.")) := by
  unfold run_prediction_intent
  dsimp only
  by_cases h1 : apply_filters_prediction state true = []
  · rw [if_pos h1, if_pos h1]
    exact ⟨rfl, rfl, rfl, rfl, rfl⟩
  · rw [if_neg h1, if_pos hd, if_neg h1]
    exact ⟨rfl, rfl, rfl, rfl, rfl⟩

/-- C5 witness: the theorem applied to a dataset with exactly 2 distinct
days. -/
theorem run_prediction_insufficient_history_witness :
    (run_prediction_intent stPred2 none).chart = none ∧
    (run_prediction_intent stPred2 none).table = none ∧
    (run_prediction_intent stPred2 none).recommendations = some [] ∧
    (run_prediction_intent stPred2 none).metrics = some (Metrics.mk 5 []) ∧
    (run_prediction_intent stPred2 none).summary =
      ("I need at least 3 days of delay history to project forward.") := by
  have h := run_prediction_insufficient_history stPred2 none (by decide)
  rw [if_neg (by decide)] at h
  exact h

/-! ## Claim C6 -/

theorem build_ensemble_estimates_sorted (df : List Shipment) (f : Filters)
    (coeffs : Option (List ℚ)) :
    List.Sorted
      (fun a b : Estimate =>
        a.predicted_delay_minutes ≤ b.predicted_delay_minutes)
      (build_ensemble_estimates df f coeffs) := by
  unfold build_ensemble_estimates
  dsimp only
  by_cases h1 : df = []
  · rw [if_pos h1]; simp
  · rw [if_neg h1]
    by_cases h2 : encoded_columns df = []
    · rw [if_pos h2]; simp
    · rw [if_neg h2]
      exact List.sorted_insertionSort _ _

/-- C6: for every prediction run and every least-squares coefficient
vector, the ensemble-estimates list in the metrics block is sorted ascending by
predicted_delay_minutes and has at most 5 entries, and the text
recommendations are built (via the fixed line format) from at most the
first 3 of those estimates. -/
theorem ensemble_sorted_capped (state : AgentState)
    (coeffs : Option (List ℚ)) :
    ∃ m, (run_prediction_intent state coeffs).metrics = some m ∧
      List.Sorted (fun a b : ℚ => a ≤ b)
        (m.ensemble_estimates.map fun e => e.predicted_delay_minutes) ∧
      m.ensemble_estimates.length ≤ 5 ∧
      (run_prediction_intent state coeffs).recommendations =
        some ((m.ensemble_estimates.take 3).map recLine) := by
  unfold run_prediction_intent
  dsimp only
  by_cases h1 : apply_filters_prediction state true = []
  · rw [if_pos h1]
    exact ⟨_, rfl, by simp, by simp, by simp [format_recommendations]⟩
  · rw [if_neg h1]
    by_cases h2 : (daily_series (apply_filters_prediction state true)).length < 3
    · rw [if_pos h2]
      exact ⟨_, rfl, by simp, by simp, by simp [format_recommendations]⟩
    · rw [if_neg h2]
      refine ⟨_, rfl, ?_, ?_, ?_⟩
      · have hs := build_ensemble_estimates_sorted
          (apply_filters_prediction state false) state.filters coeffs
        exact List.pairwise_map.mpr
          (List.Pairwise.sublist (List.take_sublist 5 _) hs)
      · rw [List.length_take]
        exact Nat.min_le_left 5 _
      · simp [format_recommendations, List.take_take]

/-! ## Claim C4 -/

/-- C4: for every prediction run with at least 3 distinct days and a
positive effective horizon h, the forecast array of the table has exactly h
entries, every projected value is at least 0 (the clamp), and the number
interpolated into the headline sentence is the arithmetic mean of those h
projected values. -/
theorem run_prediction_forecast_shape (state : AgentState)
    (coeffs : Option (List ℚ))
    (hh : 0 < effective_horizon state.forecast_horizon_days)
    (hd : 3 ≤ (daily_series (apply_filters_prediction state true)).length) :
    ∃ tbl fc, (run_prediction_intent state coeffs).table = some tbl ∧
      tbl.forecast = some fc ∧
      (fc.length : Int) = effective_horizon state.forecast_horizon_days ∧
      (∀ p ∈ fc, 0 ≤ p.predicted_avg_delay) ∧
      ∃ rest, (run_prediction_intent state coeffs).summary =
        prediction_headline (effective_horizon state.forecast_horizon_days)
          (listMean (fc.map fun p => p.predicted_avg_delay)) ++ rest := by
  have hne1 : ¬ (apply_filters_prediction state true = []) := by
    intro he
    rw [he] at hd
    simp [daily_series, distinctDatesSorted, List.insertionSort] at hd
  have hne2 :
      ¬ ((daily_series (apply_filters_prediction state true)).length < 3) := by
    omega
  unfold run_prediction_intent
  dsimp only
  rw [if_neg hne1, if_neg hne2]
  refine ⟨_, _, rfl, rfl, ?_, ?_, ?_⟩
  · rw [forecast_points_length]
    exact Int.toNat_of_nonneg (le_of_lt hh)
  · intro p hp
    simp [forecast_points] at hp
    obtain ⟨i, hi, hpi⟩ := hp
    rw [← hpi]
    exact le_max_right _ _
  · exact pyJoin_cons _ _ _

/-- C4 witness: the theorem applied to 3 days of strictly rising delays
and a 2-day horizon. -/
theorem run_prediction_forecast_shape_witness :
    ∃ tbl fc, (run_prediction_intent stPred3 none).table = some tbl ∧
      tbl.forecast = some fc ∧
      (fc.length : Int) = 2 ∧
      (∀ p ∈ fc, 0 ≤ p.predicted_avg_delay) ∧
      ∃ rest, (run_prediction_intent stPred3 none).summary =
        prediction_headline 2 (listMean (fc.map fun p => p.predicted_avg_delay))
          ++ rest :=
  run_prediction_forecast_shape stPred3 none (by decide) (by decide)

/-! ## Claim C8 -/

/-- The grouped warehouse row of the one-shipment fixture: its average
delivery time is exactly 5. -/
theorem warehouse_rows_dsOne :
    warehouse_summary_rows dsOne = [WarehouseRow.mk ("W1") 5 1 1 10] := by
  norm_num [warehouse_summary_rows, groupKeys, sortStrings, dsOne,
    countDelayed, listMean, qSum, List.insertionSort, List.orderedInsert]

/-- C8 counterexample: with a threshold of 5 and a single grouped row whose
average delivery time is exactly 5, the row at the threshold is excluded
(the filter is strict `>`), so the output is the fixed no-warehouses
result - the claim says rows at the threshold are kept. -/
theorem warehouse_threshold_boundary_excluded :
    (warehouse_summary_rows dsOne).map (fun r => r.avg_delivery_time) = [5] ∧
    wpThresh5.delivery_time_threshold = some 5 ∧
    warehouse_performance stWare wpThresh5 dsOne =
      Result.mk ("No warehouses matched threshold.") none none none none
        none := by
  refine ⟨by rw [warehouse_rows_dsOne]; rfl, rfl, ?_⟩
  have hkept :
      warehouse_thresholded [WarehouseRow.mk ("W1") 5 1 1 10]
        wpThresh5.delivery_time_threshold = [] := by
    norm_num [warehouse_thresholded, wpThresh5]
  unfold warehouse_performance
  rw [warehouse_rows_dsOne]
  dsimp only
  rw [hkept]

/-- C8 (amended): a plan-supplied numeric threshold keeps exactly the
grouped rows whose average delivery time is strictly above it (rows at or
below the threshold are excluded); if that empties the grouped result the
output is the fixed no-warehouses result with null chart and table, and
otherwise the table enumerates exactly the strictly-above-threshold
rows. -/
theorem warehouse_threshold_strict (state : AgentState)
    (plan : WarehousePlan) (df : List Shipment) (t : ℚ)
    (ht : plan.delivery_time_threshold = some t)
    (hrows : warehouse_summary_rows df ≠ []) :
    (∀ r ∈ warehouse_summary_rows df,
        (r ∈ warehouse_thresholded (warehouse_summary_rows df) (some t) ↔
          t < r.avg_delivery_time)) ∧
    (warehouse_thresholded (warehouse_summary_rows df) (some t) = [] →
      warehouse_performance state plan df =
        Result.mk ("No warehouses matched threshold.") none none none none
          none) ∧
    (∀ tbl, (warehouse_performance state plan df).table = some tbl →
      tbl.rows.Perm
        ((warehouse_thresholded (warehouse_summary_rows df) (some t)).map
          warehouseRowDict)) := by
  refine ⟨?_, ?_, ?_⟩
  · intro r hr
    simp [warehouse_thresholded, List.mem_filter, hr]
  · intro hkept
    unfold warehouse_performance
    revert hkept
    cases hrow : warehouse_summary_rows df with
    | nil => exact absurd hrow hrows
    | cons r0 rs =>
      intro hkept
      dsimp only
      rw [ht, hkept]
  · intro tbl htbl
    unfold warehouse_performance at htbl
    revert htbl
    cases hrow : warehouse_summary_rows df with
    | nil => intro htbl; exact absurd hrow hrows
    | cons r0 rs =>
      intro htbl
      dsimp only at htbl
      rw [ht] at htbl
      revert htbl
      cases hkept : warehouse_thresholded (r0 :: rs) (some t) with
      | nil => intro htbl; cases htbl
      | cons k0 ks =>
        intro htbl
        dsimp only at htbl
        revert htbl
        cases hsort : warehouseSortedRows plan (k0 :: ks) with
        | nil => intro htbl; cases htbl
        | cons s0 ss =>
          intro htbl
          dsimp only at htbl
          cases htbl
          have hperm : (s0 :: ss).Perm (k0 :: ks) := by
            rw [← hsort]
            exact sortRowsBy_perm _ _ _
          exact hperm.map warehouseRowDict

/-- C8 witness: the amended theorem with threshold 4 on the fixture whose
single grouped row has average delivery time 5: the row is kept exactly
because 4 is less than 5. -/
theorem warehouse_threshold_strict_witness :
    (WarehouseRow.mk ("W1") 5 1 1 10) ∈
        warehouse_thresholded (warehouse_summary_rows dsOne) (some 4) ↔
      (4 : ℚ) < (WarehouseRow.mk ("W1") 5 1 1 10).avg_delivery_time := by
  have h := (warehouse_threshold_strict stWare wpThresh4 dsOne 4 rfl
    (by decide)).1
  exact h (WarehouseRow.mk ("W1") 5 1 1 10)
    (warehouse_rows_dsOne ▸ List.mem_singleton_self _)

/-! ## Claim C9 -/

/-- The analytics engines can never raise from template rendering; a
failing render in the route and warehouse engines falls back to the
fixed default sentence, but the default is never empty, which exposes the
missing fallback of the delay engine below. -/
theorem default_delay_summary_ne_empty (m : List (String × PyVal))
    (p : String) : default_delay_summary m p ≠ "" := by
  unfold default_delay_summary
  intro h
  have h2 := congrArg String.data h
  simp only [String.data_append] at h2
  simp at h2

/-- C9 counterexample: in the delay-statistics engine a template whose
placeholder is missing renders to the empty summary - the fixed default
sentence of the engine (which is never empty) is not used, unlike the route and
warehouse engines. -/
theorem delay_template_failure_empty_summary :
    (run_analytics_intent stDelay rpNone wpNone dpBadTemplate).summary = ""
      ∧ default_delay_summary (default_delay_metrics dsOne)
          (describe_period none) ≠ "" :=
  ⟨by decide, default_delay_summary_ne_empty _ _⟩

/-- C9 (amended): template rendering is total (never raises: modelled
errors are values), and in both the route and the warehouse engine a
missing template, an empty template, any formatting error, or an empty
successful render all fall back to the fixed default sentence of the
respective engine, while a nonempty successful render is used verbatim.
(The delay engine lacks this fallback; see the counterexample.) -/
theorem template_fallback_route_and_warehouse (state : AgentState)
    (rplan : RoutePlan) (wplan : WarehousePlan) (df : List Shipment)
    (rtop : RouteRow) (rrest : List RouteRow)
    (wtop : WarehouseRow) (wrest : List WarehouseRow)
    (hrs : routeSortedRows rplan df = rtop :: rrest)
    (hws : warehouseSortedRows wplan
        (warehouse_thresholded (warehouse_summary_rows df)
          wplan.delivery_time_threshold) = wtop :: wrest) :
    ((routeRendered state rplan rtop = "" →
      (route_performance state rplan df).summary =
        route_default_summary (describe_period state.timeframe)
          (routeMetricLabel rplan) rtop.route
          (format_metric_value (rtop.field (routeSortField rplan)))) ∧
     (routeRendered state rplan rtop ≠ "" →
      (route_performance state rplan df).summary =
        routeRendered state rplan rtop)) ∧
    ((warehouseRendered state wplan wtop = "" →
      (warehouse_performance state wplan df).summary =
        warehouse_default_summary (warehouseFocus wplan)
          wplan.delivery_time_threshold (describe_period state.timeframe)
          wtop.warehouse (warehouseMetricLabel wplan)
          (format_metric_value (wtop.field (warehouseMetricField wplan)))) ∧
     (warehouseRendered state wplan wtop ≠ "" →
      (warehouse_performance state wplan df).summary =
        warehouseRendered state wplan wtop)) := by
  refine ⟨?_, ?_⟩
  · have hrows : route_summary_rows df ≠ [] := by
      intro h0
      have hnil : routeSortedRows rplan df = [] := by
        unfold routeSortedRows sortRowsBy
        rw [h0]
        split_ifs <;> rfl
      rw [hnil] at hrs
      cases hrs
    unfold route_performance
    cases hrow : route_summary_rows df with
    | nil => exact absurd hrow hrows
    | cons r0 rs =>
      dsimp only
      rw [hrs]
      dsimp only
      constructor
      · intro hempty
        rw [if_pos hempty]
      · intro hne
        rw [if_neg hne]
  · unfold warehouse_performance
    revert hws
    cases hrow : warehouse_summary_rows df with
    | nil =>
      intro hws
      have hkept0 : warehouse_thresholded ([] : List WarehouseRow)
          wplan.delivery_time_threshold = [] := by
        unfold warehouse_thresholded
        cases wplan.delivery_time_threshold <;> rfl
      rw [hkept0] at hws
      have hnil : warehouseSortedRows wplan [] = [] := by
        unfold warehouseSortedRows sortRowsBy
        split_ifs <;> rfl
      rw [hnil] at hws
      cases hws
    | cons r0 rs =>
      intro hws
      dsimp only
      revert hws
      cases hkept : warehouse_thresholded (r0 :: rs)
          wplan.delivery_time_threshold with
      | nil =>
        intro hws
        have hnil : warehouseSortedRows wplan [] = [] := by
          unfold warehouseSortedRows sortRowsBy
          split_ifs <;> rfl
        rw [hnil] at hws
        cases hws
      | cons k0 ks =>
        intro hws
        dsimp only
        rw [hws]
        dsimp only
        constructor
        · intro hempty
          rw [if_pos hempty]
        · intro hne
          rw [if_neg hne]

/-- C9 witness: the amended theorem on a one-route, one-warehouse dataset
with template-free plans: both engine summaries are the fixed default
sentences of their engines. -/
theorem template_fallback_route_and_warehouse_witness :
    (route_performance stRouteOne rpNone dsOne).summary =
      route_default_summary ("the selected period") ("Delayed Shipments")
        ("A") (format_metric_value
          ((RouteRow.mk ("A") 1 10 10 5 1).field ("delayed_shipments"))) ∧
    (warehouse_performance stRouteOne wpNone dsOne).summary =
      warehouse_default_summary ("best-performing") none
        ("the selected period") ("W1") ("Avg Delivery Time (days)")
        (format_metric_value
          ((WarehouseRow.mk ("W1") 5 1 1 10).field ("avg_delivery_time"))) := by
  have hrowsOne : route_summary_rows dsOne = [RouteRow.mk ("A") 1 10 10 5 1] := by
    norm_num [route_summary_rows, groupKeys, sortStrings, dsOne,
      countDelayed, listMean, qSum, List.insertionSort, List.orderedInsert]
  have hrs : routeSortedRows rpNone dsOne = RouteRow.mk ("A") 1 10 10 5 1 :: [] := by
    unfold routeSortedRows sortRowsBy
    rw [hrowsOne]
    split_ifs <;> rfl
  have hws : warehouseSortedRows wpNone
      (warehouse_thresholded (warehouse_summary_rows dsOne)
        wpNone.delivery_time_threshold) =
      WarehouseRow.mk ("W1") 5 1 1 10 :: [] := by
    rw [warehouse_rows_dsOne]
    unfold warehouseSortedRows sortRowsBy warehouse_thresholded
    split_ifs <;> rfl
  have h := template_fallback_route_and_warehouse stRouteOne rpNone wpNone
    dsOne _ _ _ _ hrs hws
  exact ⟨h.1.1 rfl, h.2.1 rfl⟩

end Hermes
